import Mathlib

/-!
Verification of the Descriptor Reconciler (`src/python/datasetsAnnotator.py`).

The script walks a catalog of dataset records; for each record it skips,
creates, or repairs the per-dataset `dataset.json` descriptor.  We embed the
JSON documents the script manipulates as association lists of string keys
(Python `dict`s preserve insertion order; updating an existing key keeps its
position, adding a new key appends), and the fallible Python operations
(`d[k]` raising `KeyError`, `len`/`<` raising `TypeError`) as `Except`
computations.

The directory probe `len(os.scandir(path))` is the external "Directory
Prober" collaborator of the spec; we model the count it yields as an explicit
`nfiles : Nat` argument.  (In CPython this very expression raises `TypeError`
— `os.scandir` returns an iterator without `len` — but directory enumeration
primitives are outside the core per the spec, so we embed the count and note
the defect in prose, not in the model.)
-/

namespace EDS

/-- A JSON value as manipulated by the script: the result of `json.load` and
the input of `json.dumps`. Objects are ordered association lists, matching
Python dict insertion order. -/
inductive JVal where
  | str (s : String)
  | int (n : Int)
  | bool (b : Bool)
  | null
  | arr (elems : List JVal)
  | obj (fields : List (String × JVal))

/-- A Python dict with string keys, as an ordered association list. -/
abbrev Dict := List (String × JVal)

/-- The Python exceptions the embedded code can raise. -/
inductive PyErr where
  | keyError (k : String)
  | typeError

/-- `d[k]` lookup: first entry with the given key (keys are unique in dicts
produced by `json.load`). -/
def dget : Dict → String → Option JVal
  | [], _ => none
  | (k', v) :: rest, k => if k' = k then some v else dget rest k

/-- Python `k in d`. -/
def dmem (d : Dict) (k : String) : Bool :=
  (dget d k).isSome

/-- `d[k] = v` assignment: replaces the value in place if the key is present
(keeping its position, as CPython does), otherwise appends the new entry. -/
def dset : Dict → String → JVal → Dict
  | [], k, v => [(k, v)]
  | (k', v') :: rest, k, v =>
      if k' = k then (k, v) :: rest else (k', v') :: dset rest k v

/-- `del d[k]` on a dict whose key is known present; removes the entry. -/
def ddel (d : Dict) (k : String) : Dict :=
  d.filter (fun p => ¬ p.1 = k)

/-- Python `len(x)` on a JSON value: defined for strings, lists and dicts,
`TypeError` otherwise. -/
def pyLen : JVal → Except PyErr Nat
  | .str s => .ok s.length
  | .arr elems => .ok elems.length
  | .obj fields => .ok fields.length
  | _ => .error .typeError

/-- Python `x < m` for `m` an int: ints compare numerically, bools are ints
(`False = 0`, `True = 1`); any other operand raises `TypeError`. -/
def pyIntLt : JVal → Int → Except PyErr Bool
  | .int d, m => .ok (decide (d < m))
  | .bool b, m => .ok (decide ((if b then (1 : Int) else 0) < m))
  | _, _ => .error .typeError

/-- One `if key in dataset: dataset_json[key] = dataset[key]` step of
`addMetaTags`. -/
def copyTag (key : String) (dataset dataset_json : Dict) : Dict :=
  match dget dataset key with
  | some v => dset dataset_json key v
  | none => dataset_json

/-- `addMetaTags(dataset, dataset_json)` (lines 46-62): copies each of the
five meta tags into `dataset_json` when present on the catalog record,
returning the updated `dataset_json`. -/
def addMetaTags (dataset dataset_json : Dict) : Dict :=
  copyTag "tags" dataset
    (copyTag "author" dataset
      (copyTag "description" dataset
        (copyTag "title" dataset
          (copyTag "dataset_id" dataset dataset_json))))

/-- `addDownloadInfo(dataset, dataset_json, dataset_directory_path)`
(lines 69-74).  `nfiles` stands for `len(os.scandir(dataset_directory_path))`,
the Directory Prober count.  The assignment
`dataset_json["download_info"]["downloaded"] = nfiles` first looks up
`download_info` in `dataset_json`: absent key raises `KeyError`, a non-dict
value raises `TypeError` on item assignment.  On an exception the function
propagates it to the caller (partial in-place mutations before the raise are
never observed, since every caller aborts before writing any file). -/
def addDownloadInfo (dataset dataset_json : Dict) (nfiles : Nat) :
    Except PyErr Dict :=
  match dget dataset_json "download_info" with
  | none => .error (.keyError "download_info")
  | some (.obj di) =>
      let di := dset di "downloaded" (.int nfiles)
      match dget dataset "download" with
      | none => .error (.keyError "download")
      | some dl =>
          match pyLen dl with
          | .error e => .error e
          | .ok u =>
              let di := dset di "total_URLS" (.int u)
              .ok (dset dataset_json "download_info" (.obj di))
  | some _ => .error .typeError

/-- `createDatasetJSONFile(dataset, dataset_directory_path)` (lines 16-39):
builds the fresh descriptor document in memory (`{}`, meta tags, download
info, `mined = False`) and only then writes it to
`dataset_directory_path + "/dataset.json"`.  `.ok doc` is the document
written; `.error e` means the exception `e` escaped before the `open`/write,
so no file was created. -/
def createDatasetJSONFile (dataset : Dict) (nfiles : Nat) :
    Except PyErr Dict :=
  let dataset_json : Dict := []
  let dataset_json := addMetaTags dataset dataset_json
  match addDownloadInfo dataset dataset_json nfiles with
  | .error e => .error e
  | .ok dataset_json => .ok (dset dataset_json "mined" (.bool false))

/-- Lines 96-104 of `checkDownloadInfo`: `ndownloaded = 0`, then the
`"Downloaded" in dataset["download_info"]` migration branch (which `del`s
both legacy fields, raising `KeyError` when `Total_URLS` is absent), else
the `"downloaded"` read.  Returns the `ndownloaded` value together with the
(possibly field-stripped) `download_info` dict it was read from. -/
def readNDownloaded (di : Dict) : Except PyErr (JVal × Dict) :=
  match dget di "Downloaded" with
  | some v =>
      let di := ddel di "Downloaded"
      if dmem di "Total_URLS" then .ok (v, ddel di "Total_URLS")
      else .error (.keyError "Total_URLS")
  | none =>
      match dget di "downloaded" with
      | some v => .ok (v, di)
      | none => .ok (.int 0, di)

/-- `checkDownloadInfo(dataset, dataset_directory_path, dataset_json_path)`
(lines 86-127).  `dataset_json` is the descriptor loaded from
`dataset_json_path`; `nfiles` is `len(os.scandir(dataset_directory_path))`.
Returns `.ok (written, dataset)` where `written` is the document serialized
back to `dataset_json_path` and `dataset` the (possibly mutated) catalog
record — note that lines 99-112 mutate `dataset["download_info"]`, not the
loaded `dataset_json`, which is written back as loaded.  For a non-dict
`dataset["download_info"]` all paths end in `TypeError` (membership test,
item get/del or item assignment on a non-dict), which the `.error .typeError`
arm summarizes. -/
def checkDownloadInfo (dataset dataset_json : Dict) (nfiles : Nat) :
    Except PyErr (Dict × Dict) :=
  if dmem dataset_json "download_info" then
    match dget dataset "download_info" with
    | none => .error (.keyError "download_info")
    | some (.obj di) =>
        match readNDownloaded di with
        | .error e => .error e
        | .ok (nd, di) =>
            -- if ndownloaded < (len(os.scandir(path)) - 1): ndownloaded = ...
            match pyIntLt nd ((nfiles : Int) - 1) with
            | .error e => .error e
            | .ok lt =>
                let nd := if lt then JVal.int ((nfiles : Int) - 1) else nd
                -- dataset["download_info"]["downloaded"] = ndownloaded
                let di := dset di "downloaded" nd
                -- dataset["download_info"]["total_URLS"] = len(dataset["download"])
                match dget dataset "download" with
                | none => .error (.keyError "download")
                | some dl =>
                    match pyLen dl with
                    | .error e => .error e
                    | .ok u =>
                        let di := dset di "total_URLS" (.int u)
                        .ok (dataset_json, dset dataset "download_info" (.obj di))
    | some _ => .error .typeError
  else
    match addDownloadInfo dataset dataset_json nfiles with
    | .error e => .error e
    | .ok dataset_json => .ok (dataset_json, dataset)

/-- One iteration of the `main` loop (lines 140-159) for a single catalog
record.  `root` is `datasets_directory_path`; `dirEx p` models
`os.path.exists p` for the dataset directory; `storedAt p` yields the
descriptor document at path `p` when the file exists there, `none` otherwise;
`nfiles` is the Directory Prober count of the dataset directory.  The result
is the list of file writes performed, paired with the exception that escaped
(if any): an exception always escapes before any write of that iteration. -/
def processDataset (root : String) (dataset : Dict) (dirEx : String → Bool)
    (storedAt : String → Option Dict) (nfiles : Nat) :
    List (String × Dict) × Option PyErr :=
  match dget dataset "dataset_id" with
  | none => ([], some (.keyError "dataset_id"))
  | some (.str dataset_id) =>
      let dataset_directory_path := root ++ "/dataset-" ++ dataset_id
      let dataset_json_path := root ++ "/dataset-" ++ dataset_id ++ "/dataset.json"
      if dirEx dataset_directory_path then
        match storedAt dataset_json_path with
        | none =>
            match createDatasetJSONFile dataset nfiles with
            | .error e => ([], some e)
            | .ok doc => ([(dataset_directory_path ++ "/dataset.json", doc)], none)
        | some dataset_json =>
            match checkDownloadInfo dataset dataset_json nfiles with
            | .error e => ([], some e)
            | .ok written => ([(dataset_json_path, written.1)], none)
      else ([], none)
  | some _ =>
      -- "/dataset-" + dataset_id raises TypeError for a non-str id (line 143)
      ([], some .typeError)

end EDS

namespace EDS

/-! ## Dictionary lemmas -/

theorem dget_dset_self (d : Dict) (k : String) (v : JVal) :
    dget (dset d k v) k = some v := by
  induction d with
  | nil => simp [dget, dset]
  | cons p rest ih =>
      obtain ⟨k', v'⟩ := p
      by_cases h : k' = k
      · simp [dset, dget, h]
      · simp [dset, dget, h, ih]

theorem dget_dset_ne (d : Dict) (k k' : String) (v : JVal) (h : ¬ k = k') :
    dget (dset d k v) k' = dget d k' := by
  induction d with
  | nil => simp [dget, dset, h]
  | cons p rest ih =>
      obtain ⟨k'', v''⟩ := p
      by_cases hk : k'' = k
      · subst hk
        simp [dset, dget, h]
      · simp [dset, dget, hk, ih]

theorem dmem_eq_false_iff (d : Dict) (k : String) :
    dmem d k = false ↔ dget d k = none := by
  unfold dmem
  cases dget d k <;> simp

theorem dget_copyTag_ne (key : String) (d dj : Dict) (k : String)
    (h : ¬ key = k) : dget (copyTag key d dj) k = dget dj k := by
  unfold copyTag
  cases dget d key with
  | none => rfl
  | some v => exact dget_dset_ne dj key k v h

theorem dget_addMetaTags_download_info (d dj : Dict) :
    dget (addMetaTags d dj) "download_info" = dget dj "download_info" := by
  unfold addMetaTags
  rw [dget_copyTag_ne _ _ _ _ (by decide), dget_copyTag_ne _ _ _ _ (by decide),
    dget_copyTag_ne _ _ _ _ (by decide), dget_copyTag_ne _ _ _ _ (by decide),
    dget_copyTag_ne _ _ _ _ (by decide)]

/-! ## Behaviour of `addDownloadInfo` when the target dict lacks
`download_info` (the situation at both of its call sites) -/

theorem addDownloadInfo_keyError (dataset dj : Dict) (nfiles : Nat)
    (h : dget dj "download_info" = none) :
    addDownloadInfo dataset dj nfiles = .error (.keyError "download_info") := by
  unfold addDownloadInfo
  rw [h]

/-! ## Decomposition of a successful repair -/

/-- Any `.ok` outcome of `checkDownloadInfo` comes from the
`"download_info" in dataset_json` branch; the written document is the loaded
one, unchanged, and every update lands in the catalog record. -/
theorem checkDownloadInfo_ok_eq (dataset dataset_json : Dict) (nfiles : Nat)
    (w d : Dict)
    (h : checkDownloadInfo dataset dataset_json nfiles = .ok (w, d)) :
    w = dataset_json ∧
    ∃ di nd u, d = dset dataset "download_info"
      (.obj (dset (dset di "downloaded" nd) "total_URLS" (.int u))) := by
  unfold checkDownloadInfo at h
  split at h
  case isTrue hmem =>
    rcases hdi : dget dataset "download_info" with _ | v
    · rw [hdi] at h
      exact Except.noConfusion h
    · rw [hdi] at h
      cases v
      case obj di =>
        dsimp only at h
        rcases hrd : readNDownloaded di with e | nddi
        · rw [hrd] at h
          exact Except.noConfusion h
        · obtain ⟨nd, di1⟩ := nddi
          rw [hrd] at h
          dsimp only at h
          rcases hlt : pyIntLt nd ((nfiles : Int) - 1) with e | lt
          · rw [hlt] at h
            exact Except.noConfusion h
          · rw [hlt] at h
            dsimp only at h
            rcases hdl : dget dataset "download" with _ | dl
            · rw [hdl] at h
              exact Except.noConfusion h
            · rw [hdl] at h
              dsimp only at h
              rcases hu : pyLen dl with e | u
              · rw [hu] at h
                exact Except.noConfusion h
              · rw [hu] at h
                simp only [Except.ok.injEq, Prod.mk.injEq] at h
                exact ⟨h.1.symm, _, _, _, h.2.symm⟩
      all_goals exact Except.noConfusion h
  case isFalse hmem =>
    rw [addDownloadInfo_keyError dataset dataset_json nfiles
      ((dmem_eq_false_iff dataset_json "download_info").mp
        (Bool.of_not_eq_true hmem))] at h
    exact Except.noConfusion h

/-! ## Claim theorems -/

/-- Claim C1: for a catalog record with U download URLs and a dataset
directory with N non-descriptor files and no descriptor, Create is claimed
to produce `download_info.downloaded = N`, `download_info.total_URLS = U`
and `mined = false`.  The code instead always raises `KeyError
'download_info'`: `createDatasetJSONFile` starts from the empty dict, never
initializes the `download_info` sub-dict, and `addDownloadInfo`'s first
assignment looks the key up before it exists, so no descriptor is ever
produced. -/
theorem createDatasetJSONFile_always_keyError (dataset : Dict) (nfiles : Nat) :
    createDatasetJSONFile dataset nfiles = .error (.keyError "download_info") := by
  have hm : addDownloadInfo dataset (addMetaTags dataset []) nfiles
      = .error (.keyError "download_info") :=
    addDownloadInfo_keyError _ _ _ (by rw [dget_addMetaTags_download_info]; rfl)
  simp only [createDatasetJSONFile, hm]

/-- Claim C2: Repair is claimed to store `max(d, N-1)` as the descriptor's
`downloaded`.  Evaluating the code on a stored descriptor with
`downloaded = 1` and a directory count of `N = 5` entries: the document
written back still carries `downloaded = 1` (and `max(1, 4) = 4` is instead
stored into the in-memory catalog record, whose own `download_info` — not
the descriptor's — also supplied the prior value). -/
theorem repair_leaves_written_downloaded_stale :
    checkDownloadInfo
      [("dataset_id", .str "7"),
       ("download", .arr [.str "u1", .str "u2", .str "u3"]),
       ("download_info", .obj [])]
      [("download_info", .obj [("downloaded", .int 1)])] 5
    = .ok ([("download_info", .obj [("downloaded", .int 1)])],
           [("dataset_id", .str "7"),
            ("download", .arr [.str "u1", .str "u2", .str "u3"]),
            ("download_info", .obj [("downloaded", .int 4), ("total_URLS", .int 3)])]) := rfl

/-- Claim C3: after Repair the written descriptor's `total_URLS` is claimed
to equal the current catalog record's URL count, never reusing the stored
value.  Evaluating the code on a stored `total_URLS = 99` with 3 catalog
URLs: the document written back still carries `99`; the freshly derived `3`
lands in the catalog record object instead. -/
theorem repair_reuses_stored_total_URLS_value :
    checkDownloadInfo
      [("download", .arr [.str "a", .str "b", .str "c"]), ("download_info", .obj [])]
      [("download_info", .obj [("downloaded", .int 10), ("total_URLS", .int 99)])] 5
    = .ok ([("download_info", .obj [("downloaded", .int 10), ("total_URLS", .int 99)])],
           [("download", .arr [.str "a", .str "b", .str "c"]),
            ("download_info", .obj [("downloaded", .int 4), ("total_URLS", .int 3)])]) := rfl

/-- Claim C4: Repair of a descriptor with legacy capitalized field names is
claimed to write back canonical lowercase names with no legacy field left.
Evaluating the code on a stored `download_info` of
`{Downloaded: 4, Total_URLS: 9}`: the document written back still carries
exactly the legacy names (the migration is applied to the catalog record
object, here one whose own `download_info` held `Downloaded = 7`), and the
stored document never gains a lowercase `downloaded`. -/
theorem repair_keeps_legacy_names_in_written_descriptor :
    checkDownloadInfo
      [("download", .arr [.str "a"]),
       ("download_info", .obj [("Downloaded", .int 7), ("Total_URLS", .int 9)])]
      [("download_info", .obj [("Downloaded", .int 4), ("Total_URLS", .int 9)])] 5
    = .ok ([("download_info", .obj [("Downloaded", .int 4), ("Total_URLS", .int 9)])],
           [("download", .arr [.str "a"]),
            ("download_info", .obj [("downloaded", .int 7), ("total_URLS", .int 1)])])
    ∧ dmem [("Downloaded", JVal.int 4), ("Total_URLS", JVal.int 9)] "downloaded" = false
    ∧ dmem [("Downloaded", JVal.int 4), ("Total_URLS", JVal.int 9)] "Downloaded" = true :=
  ⟨rfl, rfl, rfl⟩

/-- Claim C5: a catalog record whose dataset directory does not exist is
skipped — no descriptor write, no error. -/
theorem skip_when_directory_absent (root : String) (dataset : Dict)
    (dirEx : String → Bool) (storedAt : String → Option Dict) (nfiles : Nat)
    (id : String) (hid : dget dataset "dataset_id" = some (.str id))
    (hdir : dirEx (root ++ "/dataset-" ++ id) = false) :
    processDataset root dataset dirEx storedAt nfiles = ([], none) := by
  unfold processDataset
  rw [hid]
  dsimp only
  rw [hdir]
  rfl

theorem skip_when_directory_absent_witness :
    processDataset "/data" [("dataset_id", JVal.str "1")] (fun _ => false)
      (fun _ => none) 0 = ([], none) :=
  skip_when_directory_absent "/data" [("dataset_id", JVal.str "1")]
    (fun _ => false) (fun _ => none) 0 "1" rfl rfl

/-- Claim C6: every `title`, `description`, `author`, `tags` and `mined`
field of the stored descriptor survives a completed Repair unchanged, and
no field outside `download_info` is altered.  This holds — vacuously
strongly, because a completed Repair writes the loaded document back
entirely unchanged. -/
theorem repair_preserves_descriptor_fields (dataset dataset_json : Dict)
    (nfiles : Nat) (w d : Dict)
    (h : checkDownloadInfo dataset dataset_json nfiles = .ok (w, d)) :
    dget w "title" = dget dataset_json "title" ∧
    dget w "description" = dget dataset_json "description" ∧
    dget w "author" = dget dataset_json "author" ∧
    dget w "tags" = dget dataset_json "tags" ∧
    dget w "mined" = dget dataset_json "mined" ∧
    ∀ k, ¬ k = "download_info" → dget w k = dget dataset_json k := by
  obtain ⟨hw, -⟩ := checkDownloadInfo_ok_eq dataset dataset_json nfiles w d h
  subst hw
  exact ⟨rfl, rfl, rfl, rfl, rfl, fun _ _ => rfl⟩

theorem repair_preserves_descriptor_fields_witness :
    dget [("title", JVal.str "Census"),
          ("download_info", JVal.obj [("downloaded", JVal.int 2)])] "title"
      = dget [("title", JVal.str "Census"),
          ("download_info", JVal.obj [("downloaded", JVal.int 2)])] "title" :=
  (repair_preserves_descriptor_fields
    [("download", JVal.arr [JVal.str "u"]), ("download_info", JVal.obj [])]
    [("title", JVal.str "Census"), ("download_info", JVal.obj [("downloaded", JVal.int 2)])]
    1
    [("title", JVal.str "Census"), ("download_info", JVal.obj [("downloaded", JVal.int 2)])]
    [("download", JVal.arr [JVal.str "u"]),
     ("download_info", JVal.obj [("downloaded", JVal.int 0), ("total_URLS", JVal.int 1)])]
    rfl).1

/-- Claim C7: per catalog record, exactly one action, decided in order:
directory absent → skip with no write; descriptor file absent at the
canonical path `root/dataset-id/dataset.json` → the Create computation runs
and its document is the only write; otherwise the Repair computation runs on
the stored document and its written document is the only write. -/
theorem reconciler_dispatch (root : String) (dataset : Dict)
    (dirEx : String → Bool) (storedAt : String → Option Dict) (nfiles : Nat)
    (id : String) (hid : dget dataset "dataset_id" = some (.str id)) :
    (dirEx (root ++ "/dataset-" ++ id) = false →
      processDataset root dataset dirEx storedAt nfiles = ([], none)) ∧
    (dirEx (root ++ "/dataset-" ++ id) = true →
      storedAt (root ++ "/dataset-" ++ id ++ "/dataset.json") = none →
      processDataset root dataset dirEx storedAt nfiles =
        (match createDatasetJSONFile dataset nfiles with
         | .error e => ([], some e)
         | .ok doc => ([(root ++ "/dataset-" ++ id ++ "/dataset.json", doc)], none))) ∧
    (∀ dj, dirEx (root ++ "/dataset-" ++ id) = true →
      storedAt (root ++ "/dataset-" ++ id ++ "/dataset.json") = some dj →
      processDataset root dataset dirEx storedAt nfiles =
        (match checkDownloadInfo dataset dj nfiles with
         | .error e => ([], some e)
         | .ok written => ([(root ++ "/dataset-" ++ id ++ "/dataset.json", written.1)], none))) := by
  refine ⟨fun hdir => ?_, fun hdir hst => ?_, fun dj hdir hst => ?_⟩
  · unfold processDataset
    rw [hid]; dsimp only; rw [hdir]; rfl
  · unfold processDataset
    rw [hid]; dsimp only; rw [hdir, hst]; rfl
  · unfold processDataset
    rw [hid]; dsimp only; rw [hdir, hst]; rfl

theorem reconciler_dispatch_witness :
    processDataset "/data" [("dataset_id", JVal.str "1")] (fun _ => true)
      (fun _ => some [("title", JVal.str "t")]) 0
    = ([], some (.keyError "download_info")) :=
  Eq.trans
    ((reconciler_dispatch "/data" [("dataset_id", JVal.str "1")] (fun _ => true)
        (fun _ => some [("title", JVal.str "t")]) 0 "1" rfl).2.2
      [("title", JVal.str "t")] rfl rfl)
    rfl

/-- Claim C8: Repair of a descriptor with no `download_info` section is
claimed to fall back to the Create computation and write a descriptor that
gains a `download_info`.  The code instead raises `KeyError
'download_info'`: the fallback calls `addDownloadInfo` on the loaded
document, whose very first assignment looks up the `download_info` key that
this branch just established to be absent — so nothing is written. -/
theorem repair_missing_download_info_raises (dataset : Dict) (nfiles : Nat) :
    checkDownloadInfo dataset
      [("title", .str "Crime 2011"), ("mined", .bool false)] nfiles
    = .error (.keyError "download_info") := rfl

/-- Claim C9 (implicit): a Repair that finds a `download_info` key in the
loaded descriptor and completes without error writes back exactly the
loaded document; the migration, the `downloaded` correction and the fresh
`total_URLS` all land in the catalog-record object instead, whose
`download_info` ends up holding both canonical fields. -/
theorem repair_writes_back_loaded_document (dataset dataset_json : Dict)
    (nfiles : Nat) (w d : Dict)
    (_hmem : dmem dataset_json "download_info" = true)
    (h : checkDownloadInfo dataset dataset_json nfiles = .ok (w, d)) :
    w = dataset_json ∧
    ∃ di, dget d "download_info" = some (.obj di) ∧
      dmem di "downloaded" = true ∧ dmem di "total_URLS" = true := by
  obtain ⟨hw, di, nd, u, hd⟩ := checkDownloadInfo_ok_eq dataset dataset_json nfiles w d h
  subst hd
  refine ⟨hw, dset (dset di "downloaded" nd) "total_URLS" (.int u),
    dget_dset_self dataset "download_info" _, ?_, ?_⟩
  · unfold dmem
    rw [dget_dset_ne _ _ _ _ (by decide), dget_dset_self]
    rfl
  · unfold dmem
    rw [dget_dset_self]
    rfl

theorem repair_writes_back_loaded_document_witness :
    ([("title", JVal.str "Census"),
      ("download_info", JVal.obj [("downloaded", JVal.int 2)])] : Dict)
    = [("title", JVal.str "Census"),
       ("download_info", JVal.obj [("downloaded", JVal.int 2)])] :=
  (repair_writes_back_loaded_document
    [("download", JVal.arr [JVal.str "u"]), ("download_info", JVal.obj [])]
    [("title", JVal.str "Census"), ("download_info", JVal.obj [("downloaded", JVal.int 2)])]
    1
    [("title", JVal.str "Census"), ("download_info", JVal.obj [("downloaded", JVal.int 2)])]
    [("download", JVal.arr [JVal.str "u"]),
     ("download_info", JVal.obj [("downloaded", JVal.int 0), ("total_URLS", JVal.int 1)])]
    rfl rfl).1

/-- Claim C10 (implicit): Create computes the whole descriptor in memory
before the file write, so when any step of the computation raises, the run
performs no write for that record and the error is what escapes. -/
theorem create_error_writes_nothing (root : String) (dataset : Dict)
    (dirEx : String → Bool) (storedAt : String → Option Dict) (nfiles : Nat)
    (id : String) (e : PyErr)
    (hid : dget dataset "dataset_id" = some (.str id))
    (hdir : dirEx (root ++ "/dataset-" ++ id) = true)
    (hst : storedAt (root ++ "/dataset-" ++ id ++ "/dataset.json") = none)
    (herr : createDatasetJSONFile dataset nfiles = .error e) :
    processDataset root dataset dirEx storedAt nfiles = ([], some e) := by
  unfold processDataset
  rw [hid]; dsimp only; rw [hdir, hst, herr]
  rfl

theorem create_error_writes_nothing_witness :
    processDataset "/data" [("dataset_id", JVal.str "9")] (fun _ => true)
      (fun _ => none) 3 = ([], some (.keyError "download_info")) :=
  create_error_writes_nothing "/data" [("dataset_id", JVal.str "9")]
    (fun _ => true) (fun _ => none) 3 "9" (.keyError "download_info")
    rfl rfl rfl rfl

end EDS
